import Mathlib

/-!
Shallow embedding of `containerkeys/middleware.py` (swift-container-keys):
a WSGI middleware granting container access from per-container shared-secret
keys stored in container metadata. The embedding follows the source
function by function; external swift collaborators
(`streq_const_time`, `get_valid_utf8_str`, `get_container_info`) are
modelled from their documented contracts.
-/

namespace ContainerKeys

/-- `FULL_KEY` from `middleware.py`: metadata label of the full-access class. -/
def FULL_KEY : String := "Full-Key"

/-- `READ_KEY` from `middleware.py`: metadata label of the read-only class. -/
def READ_KEY : String := "Read-Key"

/-- `READ_RESTRICTED_METHODS` from `middleware.py`: HTTP methods a read key
may not use. -/
def READ_RESTRICTED_METHODS : List String := ["PUT", "POST", "DELETE"]

/-- `DEFAULT_MAX_KEYS_PER_CONTAINER` from `middleware.py`. -/
def DEFAULT_MAX_KEYS_PER_CONTAINER : Int := 3

/-- Python `str.lower()`, written structurally over the character list so
that concrete instances evaluate: lower-case every character. -/
def py_lower (s : String) : String := ⟨s.data.map Char.toLower⟩

/-- External collaborator `swift.common.utils.get_valid_utf8_str`: normalises
a raw byte string to valid UTF-8 text. A Lean `String` is always valid
UTF-8 text, so on this domain the normalisation is the identity. -/
def get_valid_utf8_str (s : String) : String := s

/-- External collaborator `swift.common.utils.streq_const_time`: constant-time
string equality. It returns false when the lengths differ, and otherwise
accumulates the byte-wise xor over the zipped characters, succeeding iff
every position agrees. -/
def streq_const_time (s1 s2 : String) : Bool :=
  if s1.length ≠ s2.length then false
  else (s1.data.zip s2.data).all (fun p => p.1 == p.2)

/-- `generate_valid_metadata_keynames` from `middleware.py`: lower-cases the
base name and prepends it to the names `"<base>-<i+1>"` for `i` taken from
`xrange(0, max_keys)` (empty when `max_keys ≤ 0`, as `xrange` is). -/
def generate_valid_metadata_keynames (key_name : String) (max_keys : Int) : List String :=
  let cmp_key := py_lower key_name
  let valid_keynames :=
    (List.range max_keys.toNat).map (fun i => cmp_key ++ "-" ++ toString (i + 1))
  [cmp_key] ++ valid_keynames

/-- The `defaultdict(list)` built by `get_container_keys_from_metadata`,
restricted to the only two keys it can ever hold. `none` models the key
being absent from the dict, so that `dict.get` yields Python `None`;
`some l` models a present entry holding list `l`. -/
structure KeysDict where
  full : Option (List String)
  read : Option (List String)
deriving DecidableEq, Repr

/-- `keys[k].append(v)` on a `defaultdict(list)`: a missing entry is created
as `[]` before the append, so the entry is present afterwards. -/
def dd_append (entry : Option (List String)) (v : String) : Option (List String) :=
  some (entry.getD [] ++ [v])

/-- The body of the loop in `get_container_keys_from_metadata`: one metadata
item `(key, value)` is classified against the generated full and read
names (an `elif`, so the full class is tried first) and appended to the
matching class, or ignored. -/
def ck_step (full_keys read_keys : List String) (keys : KeysDict)
    (kv : String × String) : KeysDict :=
  let v := get_valid_utf8_str kv.2
  let cmp_key := py_lower kv.1
  if full_keys.contains cmp_key then { keys with full := dd_append keys.full v }
  else if read_keys.contains cmp_key then { keys with read := dd_append keys.read v }
  else keys

/-- `get_container_keys_from_metadata` from `middleware.py`: folds the loop
body over the metadata items, starting from the empty `defaultdict`. -/
def get_container_keys_from_metadata (meta : List (String × String))
    (max_keys : Int) : KeysDict :=
  let full_keys := generate_valid_metadata_keynames FULL_KEY max_keys
  let read_keys := generate_valid_metadata_keynames READ_KEY max_keys
  meta.foldl (ck_step full_keys read_keys) ⟨none, none⟩

/-- `key_matches` from `middleware.py`: `any` over the list of
`streq_const_time` comparisons of `to_match` against each stored key. -/
def key_matches (to_match : String) (keys : List String) : Bool :=
  (keys.map (fun key => streq_const_time to_match key)).any id

/-- The slice of the WSGI environment dict that the middleware reads. A
field of value `none` models the header being absent from the environment;
`some ""` models a present header with an empty value. -/
structure Env where
  authToken : Option String
  fullKeyHeader : Option String
  readKeyHeader : Option String
  requestMethod : String
deriving DecidableEq, Repr

/-- Python truthiness of a possibly absent string value: `None` and the
empty string are falsy, every other string is truthy. -/
def py_truthy : Option String → Bool
  | none => false
  | some s => s ≠ ""

/-- `ContainerKeys._get_request_key_headers` from `middleware.py`: the full
key header wins when present, then the read key header, else `(None, None)`. -/
def get_request_key_headers (env : Env) : Option String × Option String :=
  if env.fullKeyHeader.isSome then (some FULL_KEY, env.fullKeyHeader)
  else if env.readKeyHeader.isSome then (some READ_KEY, env.readKeyHeader)
  else (none, none)

/-- Modelled from the spec: `get_container_info` is an external swift
collaborator (not part of this repository) that fetches container
metadata; per the spec, when the fetch fails or the container does not
exist it reports a record with empty metadata rather than raising.
`fetch = none` models that failure case. -/
def get_container_info (fetch : Option (List (String × String))) : List (String × String) :=
  fetch.getD []

/-- `ContainerKeys._get_container_keys` from `middleware.py`: fetch the
container info, then extract the keys from its metadata. -/
def get_container_keys (fetch : Option (List (String × String)))
    (max_keys : Int) : KeysDict :=
  get_container_keys_from_metadata (get_container_info fetch) max_keys

/-- Python falsiness of the keys dict: `not keys` holds iff the dict has no
entries at all. -/
def KeysDict.isEmptyDict (k : KeysDict) : Bool :=
  k.full.isNone && k.read.isNone

/-- Observable outcome of one `ContainerKeys.__call__` run: either the
request was answered with the 401 built by `_invalid` (`rejected = true`),
or it was passed to the next app in the chain, with `authorizeOverride`
recording whether `env[swift.authorize_override]` was set to `True`
beforehand. -/
structure CallResult where
  rejected : Bool
  authorizeOverride : Bool
deriving DecidableEq, Repr

/-- NoOpinion: the request is passed on unmodified. -/
def noOpinion : CallResult := ⟨false, false⟩

/-- Reject: the request is answered with the 401 from `_invalid`. -/
def reject : CallResult := ⟨true, false⟩

/-- GrantOverride: the downstream authorization override flag is set and the
request is passed on. -/
def grantOverride : CallResult := ⟨false, true⟩

/-- The uncaught Python fault raised when `key_matches` iterates `None`. -/
def typeError : String := "TypeError: NoneType object is not iterable"

/-- `ContainerKeys.__call__` from `middleware.py`. The external metadata
fetch result is passed in as `fetch`; `Except.error` models an uncaught
Python exception escaping the handler. -/
def containerKeys_call (env : Env) (fetch : Option (List (String × String)))
    (max_keys : Int) : Except String CallResult :=
  if py_truthy env.authToken then .ok noOpinion
  else
    let tk := get_request_key_headers env
    if !(py_truthy tk.2) || !(py_truthy tk.1) then .ok noOpinion
    else
      let keys := get_container_keys fetch max_keys
      if keys.isEmptyDict then .ok noOpinion
      else if tk.1 = some READ_KEY then
        match keys.read with
        | none => .error typeError
        | some rks =>
          if !(key_matches (tk.2.getD "") rks) then .ok reject
          else if READ_RESTRICTED_METHODS.contains env.requestMethod then .ok reject
          else .ok grantOverride
      else if tk.1 = some FULL_KEY then
        match keys.full with
        | none => .error typeError
        | some fks =>
          if !(key_matches (tk.2.getD "") fks) then .ok reject
          else .ok grantOverride
      else .ok grantOverride

/-- Accumulates the value of a decimal digit list; a non-digit character
makes the whole parse fail. -/
def py_digits_aux : List Char → Nat → Option Nat
  | [], acc => some acc
  | c :: cs, acc =>
    if c.isDigit then py_digits_aux cs (10 * acc + (c.toNat - 48))
    else none

/-- Parses a non-empty list of decimal digits. -/
def py_digits : List Char → Option Nat
  | [] => none
  | ds => py_digits_aux ds 0

/-- Models Python `int(s)` on the decimal strings relevant to the
configuration option: an optional minus sign followed by digits parses to
the integer, anything unparseable raises `ValueError`, modelled as `none`. -/
def py_int_parse (s : String) : Option Int :=
  match s.data with
  | '-' :: ds => (py_digits ds).map (fun n => -(n : Int))
  | ds => (py_digits ds).map (fun n => (n : Int))

/-- Association-list model of `conf.get(name)` on the merged configuration
dict of `filter_factory`. -/
def conf_get (conf : List (String × String)) (name : String) : Option String :=
  (conf.find? (fun kv => kv.1 == name)).map (fun kv => kv.2)

/-- `filter_factory` from `middleware.py`: parses `max_keys_per_container`
with `int(...)`, defaulting to 3 when the option is absent. `.ok n` is a
successful startup configuring `n`; `.error` is the `ValueError` escaping
`filter_factory`. -/
def filter_factory (conf : List (String × String)) : Except String Int :=
  match conf_get conf "max_keys_per_container" with
  | none => .ok DEFAULT_MAX_KEYS_PER_CONTAINER
  | some s =>
    match py_int_parse s with
    | some n => .ok n
    | none => .error "ValueError"

theorem zip_all_beq_iff : ∀ (l1 l2 : List Char), l1.length = l2.length →
    (((l1.zip l2).all (fun p => p.1 == p.2)) = true ↔ l1 = l2) := by
  intro l1
  induction l1 with
  | nil =>
    intro l2 h
    cases l2 <;> simp_all
  | cons a as ih =>
    intro l2 h
    cases l2 with
    | nil => simp at h
    | cons b bs =>
      have h' : as.length = bs.length := by simpa using h
      simp only [List.zip_cons_cons, List.all_cons, Bool.and_eq_true, beq_iff_eq,
        List.cons.injEq]
      rw [ih bs h']

theorem streq_const_time_iff (s1 s2 : String) :
    streq_const_time s1 s2 = true ↔ s1 = s2 := by
  obtain ⟨l1⟩ := s1
  obtain ⟨l2⟩ := s2
  unfold streq_const_time
  split
  · next h =>
    constructor
    · intro hf; cases hf
    · intro he
      cases he
      exact absurd rfl h
  · next h =>
    have h' : l1.length = l2.length := by
      have := not_not.mp h
      exact this
    rw [zip_all_beq_iff l1 l2 h']
    constructor
    · intro hd; rw [hd]
    · intro he; cases he; rfl

theorem key_matches_mem (v : String) (ks : List String) :
    key_matches v ks = true ↔ v ∈ ks := by
  unfold key_matches
  induction ks with
  | nil => simp
  | cons k ks ih =>
    simp only [List.map_cons, List.any_cons, id_eq, Bool.or_eq_true, List.mem_cons]
    rw [streq_const_time_iff, ih]

theorem py_truthy_some {v : String} (hv : v ≠ "") : py_truthy (some v) = true := by
  simp [py_truthy, hv]

theorem ck_step_full_eq (fk rk : List String) (keys : KeysDict) (kv : String × String)
    (hkv : fk.contains (py_lower kv.1) = false) :
    (ck_step fk rk keys kv).full = keys.full := by
  simp only [ck_step, hkv, Bool.false_eq_true, if_false]
  split <;> rfl

theorem ck_step_read_eq (fk rk : List String) (keys : KeysDict) (kv : String × String)
    (hkv : rk.contains (py_lower kv.1) = false) :
    (ck_step fk rk keys kv).read = keys.read := by
  simp only [ck_step, hkv, Bool.false_eq_true, if_false]
  split <;> rfl

theorem foldl_ck_full_none (fk rk : List String) :
    ∀ (meta : List (String × String)) (acc : KeysDict),
      acc.full = none →
      (∀ kv ∈ meta, fk.contains (py_lower kv.1) = false) →
      (meta.foldl (ck_step fk rk) acc).full = none := by
  intro meta
  induction meta with
  | nil =>
    intro acc hacc _
    simpa using hacc
  | cons kv rest ih =>
    intro acc hacc h
    simp only [List.foldl_cons]
    apply ih
    · rw [ck_step_full_eq fk rk acc kv (h kv (by simp))]
      exact hacc
    · intro kv2 hkv2
      exact h kv2 (List.mem_cons_of_mem _ hkv2)

theorem foldl_ck_read_none (fk rk : List String) :
    ∀ (meta : List (String × String)) (acc : KeysDict),
      acc.read = none →
      (∀ kv ∈ meta, rk.contains (py_lower kv.1) = false) →
      (meta.foldl (ck_step fk rk) acc).read = none := by
  intro meta
  induction meta with
  | nil =>
    intro acc hacc _
    simpa using hacc
  | cons kv rest ih =>
    intro acc hacc h
    simp only [List.foldl_cons]
    apply ih
    · rw [ck_step_read_eq fk rk acc kv (h kv (by simp))]
      exact hacc
    · intro kv2 hkv2
      exact h kv2 (List.mem_cons_of_mem _ hkv2)

theorem foldl_ck_entries_ne_nil (fk rk : List String) :
    ∀ (meta : List (String × String)) (acc : KeysDict),
      (∀ l, acc.full = some l → l ≠ []) →
      (∀ l, acc.read = some l → l ≠ []) →
      (∀ l, (meta.foldl (ck_step fk rk) acc).full = some l → l ≠ []) ∧
      (∀ l, (meta.foldl (ck_step fk rk) acc).read = some l → l ≠ []) := by
  intro meta
  induction meta with
  | nil =>
    intro acc hf hr
    exact ⟨hf, hr⟩
  | cons kv rest ih =>
    intro acc hf hr
    simp only [List.foldl_cons]
    apply ih
    · intro l hl
      simp only [ck_step] at hl
      split at hl
      · simp only [dd_append, Option.some.injEq] at hl
        subst hl
        simp
      · split at hl
        · exact hf l hl
        · exact hf l hl
    · intro l hl
      simp only [ck_step] at hl
      split at hl
      · exact hr l hl
      · split at hl
        · simp only [dd_append, Option.some.injEq] at hl
          subst hl
          simp
        · exact hr l hl

/-- C1: the code contradicts the claim and the repository test
test_generate_metadata_keynames at its own input: for base "test" and
max_keys 3 it returns four names including the "-1"-suffixed one, where
the claim and the test demand exactly three names without a "-1" suffix. -/
theorem C1_keynames_at_failing_input :
    generate_valid_metadata_keynames "test" 3 = ["test", "test-1", "test-2", "test-3"] ∧
    (generate_valid_metadata_keynames "test" 3).length = 4 ∧
    generate_valid_metadata_keynames "test" 3 ≠ ["test", "test-2", "test-3"] :=
  ⟨by decide, by decide, by decide⟩

/-- C2 counterexample: with metadata holding one full key and max_keys 1,
the Read class is absent from the returned registry (lookup yields none),
not present with the empty list as the claim states. -/
theorem C2_counterexample :
    (get_container_keys_from_metadata [("Full-Key", "a")] 1).read = none ∧
    (get_container_keys_from_metadata [("Full-Key", "a")] 1).read ≠ some [] :=
  ⟨by decide, by decide⟩

/-- C2 amended: a class with zero matching metadata entries is absent from
the registry (its lookup yields none) rather than present with an empty
list, and every class entry that is present holds at least one value. -/
theorem C2_registry_absent_not_empty (meta : List (String × String)) (max_keys : Int) :
    ((∀ kv ∈ meta,
        (generate_valid_metadata_keynames FULL_KEY max_keys).contains (py_lower kv.1) = false) →
      (get_container_keys_from_metadata meta max_keys).full = none) ∧
    ((∀ kv ∈ meta,
        (generate_valid_metadata_keynames READ_KEY max_keys).contains (py_lower kv.1) = false) →
      (get_container_keys_from_metadata meta max_keys).read = none) ∧
    (∀ l, (get_container_keys_from_metadata meta max_keys).full = some l → l ≠ []) ∧
    (∀ l, (get_container_keys_from_metadata meta max_keys).read = some l → l ≠ []) := by
  refine ⟨?_, ?_, ?_, ?_⟩
  · intro h
    exact foldl_ck_full_none _ _ meta ⟨none, none⟩ rfl h
  · intro h
    exact foldl_ck_read_none _ _ meta ⟨none, none⟩ rfl h
  · exact (foldl_ck_entries_ne_nil _ _ meta ⟨none, none⟩
      (by intro l h; cases h) (by intro l h; cases h)).1
  · exact (foldl_ck_entries_ne_nil _ _ meta ⟨none, none⟩
      (by intro l h; cases h) (by intro l h; cases h)).2

/-- C2 witness: instantiation of the amended theorem at one full key with
max_keys 1: the Read class is absent and the Full entry is non-empty. -/
theorem C2_registry_absent_not_empty_w :
    (get_container_keys_from_metadata [("Full-Key", "a")] 1).read = none ∧
    (["a"] : List String) ≠ [] :=
  ⟨(C2_registry_absent_not_empty [("Full-Key", "a")] 1).2.1 (by decide),
   (C2_registry_absent_not_empty [("Full-Key", "a")] 1).2.2.1 ["a"] (by decide)⟩

/-- C3: when the container has at least one key in one class and none in the
other, and the candidate belongs to the class with no keys, the decision
path hands the absent entry (Python None) to key_matches and raises an
uncaught TypeError instead of producing the 401. -/
theorem C3_absent_class_faults (env : Env) (fetch : Option (List (String × String)))
    (max_keys : Int)
    (htok : py_truthy env.authToken = false)
    (hcase :
      (env.fullKeyHeader = none ∧
        (∃ v, env.readKeyHeader = some v ∧ v ≠ "") ∧
        (get_container_keys fetch max_keys).read = none ∧
        (∃ fl, (get_container_keys fetch max_keys).full = some fl)) ∨
      ((∃ v, env.fullKeyHeader = some v ∧ v ≠ "") ∧
        (get_container_keys fetch max_keys).full = none ∧
        (∃ rl, (get_container_keys fetch max_keys).read = some rl))) :
    containerKeys_call env fetch max_keys = .error typeError := by
  simp [py_truthy] at htok
  rcases hcase with ⟨hfh, ⟨v, hrh, hv⟩, hrd, fl, hfl⟩ | ⟨⟨v, hfh, hv⟩, hfl, rl, hrl⟩
  · simp [containerKeys_call, get_request_key_headers, hfh, hrh, htok, hv,
      KeysDict.isEmptyDict, hrd, hfl, py_truthy, READ_KEY, FULL_KEY]
  · simp [containerKeys_call, get_request_key_headers, hfh, htok, hv,
      KeysDict.isEmptyDict, hfl, hrl, py_truthy, READ_KEY, FULL_KEY]

/-- C3 witness: a read-class candidate against a container that only has a
full key makes the handler raise the TypeError. -/
theorem C3_absent_class_faults_w :
    containerKeys_call ⟨none, none, some "x", "GET"⟩ (some [("Full-Key", "fk")]) 3
      = .error typeError :=
  C3_absent_class_faults ⟨none, none, some "x", "GET"⟩ (some [("Full-Key", "fk")]) 3 rfl
    (Or.inl ⟨rfl, ⟨"x", rfl, by decide⟩, by decide, ⟨["fk"], by decide⟩⟩)

/-- C4 counterexample: a read-class candidate against a non-empty registry
that has only a full key makes the handler raise the TypeError; the
outcome is not the Reject the claim demands for a candidate matching no
read entry. -/
theorem C4_counterexample :
    containerKeys_call ⟨none, none, some "nokey", "GET"⟩ (some [("Full-Key", "fk")]) 3
        = .error typeError ∧
    ∀ r, containerKeys_call ⟨none, none, some "nokey", "GET"⟩ (some [("Full-Key", "fk")]) 3
        ≠ .ok r := by
  have h : containerKeys_call ⟨none, none, some "nokey", "GET"⟩ (some [("Full-Key", "fk")]) 3
      = .error typeError := rfl
  exact ⟨h, fun r hc => by rw [h] at hc; cases hc⟩

/-- C4 amended: for a read-class candidate, provided the registry has an
entry for the Read class, the claimed trichotomy holds: no matching read
entry gives Reject, a match with a PUT, POST or DELETE method gives
Reject, and a match with any other method gives GrantOverride. -/
theorem C4_read_key_decision (env : Env) (fetch : Option (List (String × String)))
    (max_keys : Int) (v : String) (rks : List String)
    (htok : py_truthy env.authToken = false)
    (hfh : env.fullKeyHeader = none)
    (hrh : env.readKeyHeader = some v)
    (hv : v ≠ "")
    (hrk : (get_container_keys fetch max_keys).read = some rks) :
    (key_matches v rks = false →
        containerKeys_call env fetch max_keys = .ok reject) ∧
    (key_matches v rks = true →
      env.requestMethod ∈ READ_RESTRICTED_METHODS →
        containerKeys_call env fetch max_keys = .ok reject) ∧
    (key_matches v rks = true →
      env.requestMethod ∉ READ_RESTRICTED_METHODS →
        containerKeys_call env fetch max_keys = .ok grantOverride) := by
  simp [py_truthy] at htok
  refine ⟨?_, ?_, ?_⟩
  · intro hm
    simp [containerKeys_call, get_request_key_headers, hfh, hrh, htok, hv,
      KeysDict.isEmptyDict, hrk, hm, py_truthy, READ_KEY, FULL_KEY]
  · intro hm hmeth
    have hc : READ_RESTRICTED_METHODS.contains env.requestMethod = true :=
      List.elem_iff.mpr hmeth
    simp [containerKeys_call, get_request_key_headers, hfh, hrh, htok, hv,
      KeysDict.isEmptyDict, hrk, hm, hc, hmeth, py_truthy, READ_KEY, FULL_KEY]
  · intro hm hmeth
    have hc : READ_RESTRICTED_METHODS.contains env.requestMethod = false := by
      rw [Bool.eq_false_iff]
      intro hcc
      exact hmeth (List.elem_iff.mp hcc)
    simp [containerKeys_call, get_request_key_headers, hfh, hrh, htok, hv,
      KeysDict.isEmptyDict, hrk, hm, hc, hmeth, py_truthy, READ_KEY, FULL_KEY]

/-- C4 witness: a matching read key with method PUT is rejected. -/
theorem C4_read_key_decision_w :
    containerKeys_call ⟨none, none, some "r1", "PUT"⟩ (some [("Read-Key", "r1")]) 3
      = .ok reject :=
  (C4_read_key_decision ⟨none, none, some "r1", "PUT"⟩ (some [("Read-Key", "r1")]) 3
      "r1" ["r1"] rfl rfl rfl (by decide) (by decide)).2.1 (by decide) (by decide)

/-- C5 counterexample: a full-class candidate against a non-empty registry
that has only a read key makes the handler raise the TypeError; the
outcome is not the Reject the claim demands for a candidate matching no
full entry. -/
theorem C5_counterexample :
    containerKeys_call ⟨none, some "nokey", none, "GET"⟩ (some [("Read-Key", "rk")]) 3
        = .error typeError ∧
    ∀ r, containerKeys_call ⟨none, some "nokey", none, "GET"⟩ (some [("Read-Key", "rk")]) 3
        ≠ .ok r := by
  have h : containerKeys_call ⟨none, some "nokey", none, "GET"⟩ (some [("Read-Key", "rk")]) 3
      = .error typeError := rfl
  exact ⟨h, fun r hc => by rw [h] at hc; cases hc⟩

/-- C5 amended: for a full-class candidate, provided the registry has an
entry for the Full class: no matching full entry gives Reject, and a
match gives GrantOverride for every HTTP method, where GrantOverride is
precisely the outcome that sets the downstream authorization override
flag before passing the request on. -/
theorem C5_full_key_decision (env : Env) (fetch : Option (List (String × String)))
    (max_keys : Int) (v : String) (fks : List String)
    (htok : py_truthy env.authToken = false)
    (hfh : env.fullKeyHeader = some v)
    (hv : v ≠ "")
    (hfk : (get_container_keys fetch max_keys).full = some fks) :
    (key_matches v fks = false →
        containerKeys_call env fetch max_keys = .ok reject) ∧
    (key_matches v fks = true →
        containerKeys_call env fetch max_keys = .ok grantOverride ∧
        grantOverride.authorizeOverride = true) := by
  simp [py_truthy] at htok
  constructor
  · intro hm
    simp [containerKeys_call, get_request_key_headers, hfh, htok, hv,
      KeysDict.isEmptyDict, hfk, hm, py_truthy, READ_KEY, FULL_KEY]
  · intro hm
    refine ⟨?_, rfl⟩
    simp [containerKeys_call, get_request_key_headers, hfh, htok, hv,
      KeysDict.isEmptyDict, hfk, hm, py_truthy, READ_KEY, FULL_KEY]

/-- C5 witness: a matching full key is granted the override even for the
mutating method DELETE. -/
theorem C5_full_key_decision_w :
    containerKeys_call ⟨none, some "fk", none, "DELETE"⟩ (some [("Full-Key", "fk")]) 3
      = .ok grantOverride :=
  ((C5_full_key_decision ⟨none, some "fk", none, "DELETE"⟩ (some [("Full-Key", "fk")]) 3
      "fk" ["fk"] rfl rfl (by decide) (by decide)).2 (by decide)).1

/-- C6 counterexample: the claim says an empty candidate value never
matches, but key_matches applied to the empty string and a key list
containing the empty string returns true. -/
theorem C6_counterexample :
    key_matches "" [""] = true ∧ key_matches "" [""] ≠ false :=
  ⟨by decide, by decide⟩

/-- C6 amended: key_matches succeeds exactly when the candidate value
equals some entry of the key list under the constant-time comparator; in
particular it fails whenever the value, empty or not, equals no entry,
and the empty value fails unless the empty string itself is a stored key. -/
theorem C6_key_matches_iff_mem (v : String) (ks : List String) :
    key_matches v ks = true ↔ v ∈ ks :=
  key_matches_mem v ks

/-- C7: the outcome is NoOpinion, passing the request on with no 401 and no
override flag, when a non-empty auth token is present, when no candidate
credential is present (absent headers or an empty extracted value), or
when the registry has no entries at all even though a candidate exists. -/
theorem C7_no_opinion_cases (env : Env) (fetch : Option (List (String × String)))
    (max_keys : Int) :
    ((∃ t, env.authToken = some t ∧ t ≠ "") →
        containerKeys_call env fetch max_keys = .ok noOpinion) ∧
    (py_truthy env.authToken = false →
      ((env.fullKeyHeader = none ∧ env.readKeyHeader = none) ∨
        env.fullKeyHeader = some "" ∨
        (env.fullKeyHeader = none ∧ env.readKeyHeader = some "")) →
      containerKeys_call env fetch max_keys = .ok noOpinion) ∧
    (py_truthy env.authToken = false →
      (get_container_keys fetch max_keys).full = none →
      (get_container_keys fetch max_keys).read = none →
      containerKeys_call env fetch max_keys = .ok noOpinion) := by
  refine ⟨?_, ?_, ?_⟩
  · rintro ⟨t, ht, htne⟩
    simp [containerKeys_call, ht, py_truthy, htne]
  · intro htok hcase
    simp [py_truthy] at htok
    rcases hcase with ⟨h1, h2⟩ | h1 | ⟨h1, h2⟩
    · simp [containerKeys_call, get_request_key_headers, htok, h1, h2, py_truthy]
    · simp [containerKeys_call, get_request_key_headers, htok, h1, py_truthy]
    · simp [containerKeys_call, get_request_key_headers, htok, h1, h2, py_truthy]
  · intro htok hfk hrk
    simp [py_truthy] at htok
    simp [containerKeys_call, htok, KeysDict.isEmptyDict, hfk, hrk, py_truthy]

/-- C7 witness: a request with an auth token present takes the NoOpinion
path even though a candidate key header is also present. -/
theorem C7_no_opinion_cases_w :
    containerKeys_call ⟨some "tok", some "fk", none, "GET"⟩ (some [("Full-Key", "fk")]) 3
      = .ok noOpinion :=
  (C7_no_opinion_cases ⟨some "tok", some "fk", none, "GET"⟩ (some [("Full-Key", "fk")]) 3).1
    ⟨"tok", rfl, by decide⟩

/-- C8: the extractor prefers the Full-Key header whenever it is present,
falls back to the Read-Key header, and reports no candidate when neither
header is present. -/
theorem C8_extractor (env : Env) :
    (∀ v, env.fullKeyHeader = some v →
        get_request_key_headers env = (some FULL_KEY, some v)) ∧
    (env.fullKeyHeader = none → ∀ v, env.readKeyHeader = some v →
        get_request_key_headers env = (some READ_KEY, some v)) ∧
    (env.fullKeyHeader = none → env.readKeyHeader = none →
        get_request_key_headers env = (none, none)) := by
  refine ⟨?_, ?_, ?_⟩ <;> intros <;> simp_all [get_request_key_headers]

/-- C8 witness: with both headers present the extractor returns the Full
class and the Full-Key header value. -/
theorem C8_extractor_w :
    get_request_key_headers ⟨none, some "fullkey", some "readkey", "GET"⟩
      = (some FULL_KEY, some "fullkey") :=
  (C8_extractor ⟨none, some "fullkey", some "readkey", "GET"⟩).1 "fullkey" rfl

/-- C9: when the metadata fetch collaborator fails or reports no container,
modelled per the spec as empty metadata, the handler passes the request
on with no fault, no 401 and no override flag, whatever the request. -/
theorem C9_fetch_failure_no_opinion (env : Env) (max_keys : Int) :
    containerKeys_call env none max_keys = .ok noOpinion := by
  simp only [containerKeys_call]
  split
  · rfl
  · split
    · rfl
    · split
      · rfl
      · next h => exact absurd rfl h

/-- C10 counterexample: startup accepts zero and negative values of
max_keys_per_container instead of raising as the claim demands. -/
theorem C10_counterexample :
    filter_factory [("max_keys_per_container", "0")] = .ok 0 ∧
    filter_factory [("max_keys_per_container", "-2")] = .ok (-2) :=
  ⟨rfl, rfl⟩

/-- C10 amended: filter_factory raises only when the configured value does
not parse as an integer and succeeds for every integer value, zero and
negative included; a non-positive configured bound still never faults
request handling, since key name generation then yields just the base
name. -/
theorem C10_filter_factory_parses_int (s : String) :
    (∀ n, py_int_parse s = some n →
        filter_factory [("max_keys_per_container", s)] = .ok n) ∧
    (py_int_parse s = none →
        filter_factory [("max_keys_per_container", s)] = .error "ValueError") ∧
    (∀ key_name max_keys, max_keys ≤ 0 →
        generate_valid_metadata_keynames key_name max_keys = [py_lower key_name]) := by
  have hc : conf_get [("max_keys_per_container", s)] "max_keys_per_container" = some s := rfl
  refine ⟨?_, ?_, ?_⟩
  · intro n hn
    simp [filter_factory, hc, hn]
  · intro hn
    simp [filter_factory, hc, hn]
  · intro key_name max_keys h
    simp [generate_valid_metadata_keynames, Int.toNat_of_nonpos h]

/-- C10 witness: a positive value parses and startup succeeds, a non-numeric
value raises, and a zero bound yields only the unsuffixed key name. -/
theorem C10_filter_factory_parses_int_w :
    filter_factory [("max_keys_per_container", "7")] = .ok 7 ∧
    filter_factory [("max_keys_per_container", "abc")] = .error "ValueError" ∧
    generate_valid_metadata_keynames "Full-Key" 0 = ["full-key"] :=
  ⟨(C10_filter_factory_parses_int "7").1 7 rfl,
   (C10_filter_factory_parses_int "abc").2.1 rfl,
   ((C10_filter_factory_parses_int "x").2.2 "Full-Key" 0 (by decide)).trans (by decide)⟩

end ContainerKeys
